import Mathlib

/-!
Verification development for the ClaimGuard Namibia fraud-detection frontend.

The definitions below are shallow embeddings of the TypeScript source:
- `parseCSV`, `validateClaim`, `processClaims` from the batch-upload page
  (`src/unnamed/part_002`, component `BatchUpload`);
- the HTTP client `request` from `src/claimguard-namibia/src/services/api.ts`;
- the risk-bar bucketing from `src/claimguard-namibia/src/pages/Claims.tsx`;
- `transformFormData` from the new-claim form.

JavaScript strings are modelled as Lean `String` (operated on through their
character lists), JS numbers as `Int`/`Rat` (exact arithmetic; IEEE rounding
of `parseFloat` is abstracted to exact rationals), and JS objects built by
`row[key] = value` assignments as association lists where the last
assignment to a key wins.
-/

namespace ClaimGuard

/-- A JS value stored in a parsed CSV row object: either a field string or
the numeric `rowNumber` set by `parseCSV`. -/
inductive CsvVal where
  | str (s : String)
  | num (n : Nat)
deriving DecidableEq, Repr

/-- A JS object as built by successive `row[key] = value` assignments, in
assignment order. -/
abbrev Obj := List (String × CsvVal)

/-- Property lookup: the value of the last assignment to `k` (later
assignments overwrite earlier ones, as in JS), or `none` (undefined). -/
def objGet (o : Obj) (k : String) : Option CsvVal :=
  (o.reverse.find? (fun kv => kv.1 = k)).map Prod.snd

/-! ## JS string helpers (split / trim), on character lists -/

/-- `String.prototype.split` with a single-character separator: splitting
never drops segments, and splitting the empty string yields `[[]]`. -/
def splitOnChar (c : Char) : List Char → List (List Char)
  | [] => [[]]
  | x :: xs =>
    match splitOnChar c xs with
    | [] => [[x]]
    | r :: rs => if x = c then [] :: r :: rs else (x :: r) :: rs

/-- The ASCII whitespace characters removed by `String.prototype.trim`
(JS also trims further Unicode space characters, which do not occur in
this application's data). -/
def jsWhite (c : Char) : Bool :=
  c = ' ' || c = '\t' || c = '\n' || c = '\r' || c = '\x0b' || c = '\x0c'

/-- `String.prototype.trim` on a character list. -/
def trimChars (l : List Char) : List Char :=
  ((l.dropWhile jsWhite).reverse.dropWhile jsWhite).reverse

/-! ## JS numeric parsing (`parseInt`, `parseFloat`) -/

/-- Numeric value of a decimal digit character. -/
def digitVal (c : Char) : Nat := c.toNat - '0'.toNat

/-- Numeric value of a hexadecimal digit character. -/
def hexDigitVal (c : Char) : Nat :=
  if c.isDigit then c.toNat - '0'.toNat
  else if 'a' ≤ c ∧ c ≤ 'f' then c.toNat - 'a'.toNat + 10
  else c.toNat - 'A'.toNat + 10

/-- Hexadecimal digit test, as accepted by `parseInt` with a `0x` prefix. -/
def isHexDigitChar (c : Char) : Bool :=
  c.isDigit || ('a' ≤ c && c ≤ 'f') || ('A' ≤ c && c ≤ 'F')

/-- Value of a list of decimal digits, most significant first. -/
def decDigitsVal (ds : List Char) : Nat :=
  ds.foldl (fun a c => a * 10 + digitVal c) 0

/-- Value of a list of hexadecimal digits, most significant first. -/
def hexDigitsVal (ds : List Char) : Nat :=
  ds.foldl (fun a c => a * 16 + hexDigitVal c) 0

/-- JS `parseInt(s)` (radix unspecified): trim whitespace, optional sign,
optional `0x`/`0X` prefix selecting base 16, then the longest prefix of
digits; `none` models `NaN` (no digits found). -/
def jsParseInt (s : String) : Option Int :=
  let t := trimChars s.data
  let signRest : Int × List Char :=
    match t with
    | '-' :: r => (-1, r)
    | '+' :: r => (1, r)
    | r => (1, r)
  let sign := signRest.1
  let rest := signRest.2
  let hexPref : Bool :=
    match rest with
    | '0' :: x :: _ => x = 'x' || x = 'X'
    | _ => false
  if hexPref then
    let ds := (rest.drop 2).takeWhile isHexDigitChar
    if ds.isEmpty then none else some (sign * hexDigitsVal ds)
  else
    let ds := rest.takeWhile Char.isDigit
    if ds.isEmpty then none else some (sign * decDigitsVal ds)

/-- Result of JS `parseFloat`: a finite rational, or an infinity
(`parseFloat("Infinity")`); `none` at the call sites models `NaN`. -/
inductive JsNum where
  | fin (q : Rat)
  | inf (neg : Bool)
deriving DecidableEq, Repr

/-- The digit groups of a `parseFloat` literal, after the sign: the
integer digits, the fractional digits, and the exponent value
(`digits [. digits] [e|E [sign] digits]`, at least one digit before or
after the point; an exponent marker without digits is ignored). `none`
models `NaN`. -/
def floatDigitsOf (rest : List Char) : Option (List Char × List Char × Int) :=
  let intDs := rest.takeWhile Char.isDigit
  let afterInt := rest.drop intDs.length
  let fracDs : List Char :=
    match afterInt with
    | '.' :: r => r.takeWhile Char.isDigit
    | _ => []
  let hadPoint : Bool := match afterInt with | '.' :: _ => true | _ => false
  if intDs.isEmpty ∧ fracDs.isEmpty then none
  else
    let afterFrac := if hadPoint then (afterInt.drop 1).drop fracDs.length else afterInt
    let expVal : Int :=
      match afterFrac with
      | e :: r =>
        if e = 'e' ∨ e = 'E' then
          let expSignRest : Int × List Char :=
            match r with
            | '-' :: r2 => (-1, r2)
            | '+' :: r2 => (1, r2)
            | r2 => (1, r2)
          let eds := expSignRest.2.takeWhile Char.isDigit
          if eds.isEmpty then 0 else expSignRest.1 * decDigitsVal eds
        else 0
      | [] => 0
    some (intDs, fracDs, expVal)

/-- The rational value of a parsed float literal: sign, digit groups and
decimal exponent. -/
def ratOfParts (neg : Bool) : List Char × List Char × Int → Rat :=
  fun p =>
    let mant : Rat :=
      (decDigitsVal p.1 : Rat) + (decDigitsVal p.2.1 : Rat) / ((10 : Rat) ^ p.2.1.length)
    let scaled : Rat :=
      if 0 ≤ p.2.2 then mant * (10 : Rat) ^ p.2.2.toNat
      else mant / (10 : Rat) ^ (-p.2.2).toNat
    if neg then -scaled else scaled

/-- JS `parseFloat(s)`: trim whitespace, optional sign, then either the
literal `Infinity` or a decimal literal. `none` models `NaN`. Exact
rational semantics stand in for IEEE-754 rounding. -/
def jsParseFloat (s : String) : Option JsNum :=
  let t := trimChars s.data
  let signRest : Bool × List Char :=
    match t with
    | '-' :: r => (true, r)
    | '+' :: r => (false, r)
    | r => (false, r)
  let neg := signRest.1
  let rest := signRest.2
  if rest.take 8 = "Infinity".data then some (.inf neg)
  else (floatDigitsOf rest).map fun p => .fin (ratOfParts neg p)

/-- `parseInt(s) || 0`: `NaN` (and `0` itself) collapse to `0`. -/
def jsParseIntOr0 (s : String) : Int := (jsParseInt s).getD 0

/-- `parseFloat(s) || 0`: `NaN` (and `0`) collapse to `0`. An infinite
parse (`"Infinity"`) has no rational value and is mapped to `0` here; the
form-validity predicates used in the theorems exclude such inputs. -/
def jsParseFloatOr0 (s : String) : Rat :=
  match jsParseFloat s with
  | some (.fin q) => q
  | _ => 0

/-! ## `parseCSV` (BatchUpload) -/

/-- The lines of the CSV text: `csvText.split('\n')`. -/
def csvLines (csvText : String) : List (List Char) :=
  splitOnChar '\n' csvText.data

/-- The header names: `lines[0].split(',').map(h => h.trim())`. -/
def csvHeaders (csvText : String) : List String :=
  match csvLines csvText with
  | [] => []
  | l0 :: _ => (splitOnChar ',' l0).map (fun h => String.mk (trimChars h))

/-- One parsed row object: `row[header] = values[index] || ''` for each
header in order, then `row.rowNumber = i`. -/
def mkRow (headers : List String) (line : List Char) (i : Nat) : Obj :=
  let values := (splitOnChar ',' line).map (fun v => String.mk (trimChars v))
  (headers.enum.map (fun hi => (hi.2, CsvVal.str (values.getD hi.1 "")))) ++
    [("rowNumber", CsvVal.num i)]

/-- `parseCSV` from `BatchUpload`: for each `i` from 1, a non-blank line
`lines[i]` contributes one row object with `rowNumber = i`. -/
def parseCSV (csvText : String) : List Obj :=
  let lines := csvLines csvText
  let headers := csvHeaders csvText
  (lines.enum.drop 1).filterMap fun il =>
    if trimChars il.2 = [] then none else some (mkRow headers il.2 il.1)

/-! ## `validateClaim` (BatchUpload) -/

/-- The 30 required fields listed in `validateClaim`, in source order. -/
def requiredFields : List String :=
  ["claim_id", "age_group", "gender", "marital_status", "income_band",
   "employment_status", "address_change_last_6_months", "deductible_level",
   "days_policy_accident", "days_policy_claim", "past_number_of_claims",
   "vehicle_category", "vehicle_price_range", "vehicle_age_years",
   "accident_area", "police_report_filed", "witness_present",
   "weather_condition", "accident_time", "agent_type", "claim_amendments",
   "address_change_linked_to_claim", "claim_amount_range",
   "payout_to_claim_ratio", "claim_channel", "repair_shop_pattern",
   "fraud_percentage_estimate", "fraud_type", "high_risk_combination", "region"]

/-- JS truthiness of a row value: a string is truthy iff non-empty, a
number iff non-zero. -/
def csvTruthy : CsvVal → Bool
  | .str s => !s.isEmpty
  | .num n => n != 0

/-- The missing-field test `!claim[f] && claim[f] !== 0 && claim[f] !== false`:
it holds exactly for `undefined` and the empty string (a zero fails the
strict `!== 0` comparison). -/
def isMissingVal : Option CsvVal → Bool
  | none => true
  | some (.str s) => s.isEmpty
  | some (.num _) => false

/-- `isNaN(parseInt(v))` for a row value: a number stringifies and always
re-parses; a string is `NaN` iff `jsParseInt` finds no digits. -/
def csvParseIntNaN : CsvVal → Bool
  | .str s => (jsParseInt s).isNone
  | .num _ => false

/-- `isNaN(parseFloat(v))` for a row value. -/
def csvParseFloatNaN : CsvVal → Bool
  | .str s => (jsParseFloat s).isNone
  | .num _ => false

/-- `['true', 'false', true, false].includes(v)` for a row value (a row
value is never a JS boolean, so only the two strings can match). -/
def isTrueFalseStr : CsvVal → Bool
  | .str s => s = "true" || s = "false"
  | .num _ => false

/-- The condition of one numeric type check,
`claim[f] && isNaN(parse...(claim[f]))`: the field is truthy yet fails to
parse. -/
def numBad (nanTest : CsvVal → Bool) (c : Obj) (f : String) : Bool :=
  match objGet c f with
  | some v => csvTruthy v && nanTest v
  | none => false

/-- The condition of one boolean type check,
`claim[f] && !['true','false',true,false].includes(claim[f])`. -/
def boolBad (c : Obj) (f : String) : Bool :=
  match objGet c f with
  | some v => csvTruthy v && !isTrueFalseStr v
  | none => false

/-- One numeric type check, contributing `[msg]` on failure and `[]`
otherwise. -/
def numCheck (nanTest : CsvVal → Bool) (c : Obj) (f msg : String) : List String :=
  if numBad nanTest c f then [msg] else []

/-- One boolean type check, contributing its message on failure. -/
def boolCheck (c : Obj) (f : String) : List String :=
  if boolBad c f then [f ++ " must be true or false"] else []

/-- `validateClaim` from `BatchUpload`: the missing-field messages for the
30 required fields in order, then the seven numeric type checks, then the
five boolean type checks, exactly as pushed by the source. -/
def validateClaim (c : Obj) : List String :=
  (requiredFields.filterMap fun f =>
    if isMissingVal (objGet c f) then some ("Missing required field: " ++ f) else none)
  ++ numCheck csvParseIntNaN c "days_policy_accident" "days_policy_accident must be a number"
  ++ numCheck csvParseIntNaN c "days_policy_claim" "days_policy_claim must be a number"
  ++ numCheck csvParseIntNaN c "past_number_of_claims" "past_number_of_claims must be a number"
  ++ numCheck csvParseIntNaN c "vehicle_age_years" "vehicle_age_years must be a number"
  ++ numCheck csvParseIntNaN c "claim_amendments" "claim_amendments must be a number"
  ++ numCheck csvParseFloatNaN c "payout_to_claim_ratio" "payout_to_claim_ratio must be a decimal number"
  ++ numCheck csvParseFloatNaN c "fraud_percentage_estimate" "fraud_percentage_estimate must be a decimal number"
  ++ boolCheck c "address_change_last_6_months"
  ++ boolCheck c "police_report_filed"
  ++ boolCheck c "witness_present"
  ++ boolCheck c "address_change_linked_to_claim"
  ++ boolCheck c "high_risk_combination"

/-! ## `processBatchUpload` (BatchUpload) -/

/-- One per-row result entry pushed by `processBatchUpload`: `row` is the
row object's `rowNumber` property (possibly `undefined`). -/
structure BatchResult where
  row : Option CsvVal
  claimId : String
  status : String
  message : String
deriving DecidableEq, Repr

/-- The backend, as seen through `apiService`: the outcome of the `n`-th
`createClaim` call (`.ok` carries the `claim_id` of the response) and of
the `n`-th `predictFraud` call. -/
structure ApiOracle where
  create : Nat → Except String String
  predict : Nat → Except String Unit

/-- String display of a row value in a template literal. -/
def jsDisplay : CsvVal → String
  | .str s => s
  | .num n => Nat.repr n

/-- `claim.claim_id || Row ${claim.rowNumber}` — the fallback claim id
used in error entries (an absent `rowNumber` renders as `undefined`). -/
def claimIdFallback (c : Obj) : String :=
  let rowStr := match objGet c "rowNumber" with
    | some v => jsDisplay v
    | none => "undefined"
  match objGet c "claim_id" with
  | some v => if csvTruthy v then jsDisplay v else "Row " ++ rowStr
  | none => "Row " ++ rowStr

/-- The outcome of the loop in `processBatchUpload`: the per-row result
entries in order, the row objects passed to `createClaim` in call order,
and the final create/predict call counts. -/
structure BatchRun where
  results : List BatchResult
  createArgs : List Obj
  cEnd : Nat
  pEnd : Nat
deriving DecidableEq

/-- The per-claim loop of `processBatchUpload`, with `c`/`p` the number of
`createClaim`/`predictFraud` calls made so far: a row failing validation
yields an error entry and no API call; otherwise `createClaim` is called,
then on success `predictFraud`, and the entry is `success`, `warning`
(claim created, prediction failed) or `error` (creation failed). -/
def processClaims (o : ApiOracle) : List Obj → Nat → Nat → BatchRun
  | [], c, p => ⟨[], [], c, p⟩
  | claim :: rest, c, p =>
    let errs := validateClaim claim
    if errs.isEmpty then
      match o.create c with
      | .ok newId =>
        match o.predict p with
        | .ok _ =>
          let r := processClaims o rest (c + 1) (p + 1)
          ⟨⟨objGet claim "rowNumber", newId, "success",
             "Processed successfully with fraud prediction"⟩ :: r.results,
           claim :: r.createArgs, r.cEnd, r.pEnd⟩
        | .error m =>
          let r := processClaims o rest (c + 1) (p + 1)
          ⟨⟨objGet claim "rowNumber", newId, "warning",
             "Claim created but prediction failed: " ++ m⟩ :: r.results,
           claim :: r.createArgs, r.cEnd, r.pEnd⟩
      | .error m =>
        let r := processClaims o rest (c + 1) p
        ⟨⟨objGet claim "rowNumber", claimIdFallback claim, "error",
           "API error: " ++ m⟩ :: r.results,
         claim :: r.createArgs, r.cEnd, r.pEnd⟩
    else
      let r := processClaims o rest c p
      ⟨⟨objGet claim "rowNumber", claimIdFallback claim, "error",
         String.intercalate ", " errs⟩ :: r.results,
       r.createArgs, r.cEnd, r.pEnd⟩

/-- `processBatchUpload` after reading the file: parse the CSV, fail when
no row was parsed, otherwise run the per-claim loop. -/
def processBatchUpload (o : ApiOracle) (csvText : String) : Except String (List BatchResult) :=
  let claims := parseCSV csvText
  if claims.isEmpty then .error "No valid claims found in CSV file"
  else .ok (processClaims o claims 0 0).results

/-- The sample CSV template offered for download by `BatchUpload`
(`csvTemplate`), verbatim. -/
def csvTemplate : String :=
  "claim_id,age_group,gender,marital_status,income_band,employment_status,address_change_last_6_months,deductible_level,days_policy_accident,days_policy_claim,past_number_of_claims,vehicle_category,vehicle_price_range,vehicle_age_years,accident_area,police_report_filed,witness_present,weather_condition,accident_time,agent_type,claim_amendments,address_change_linked_to_claim,claim_amount_range,payout_to_claim_ratio,claim_channel,repair_shop_pattern,fraud_percentage_estimate,fraud_type,high_risk_combination,region\nCLM-BATCH-001,25-35,Male,Single,Medium,Employed,false,Medium,30,15,0,Private,150000-200000,4,Urban,true,true,Clear,Day,Direct,0,false,15000-25000,0.85,Online,Standard,2.5,None,false,Windhoek\nCLM-BATCH-002,35-45,Female,Married,High,Employed,false,High,45,30,1,Private,100000-150000,5,Suburban,true,false,Clear,Night,Agent,1,false,10000-20000,0.90,Phone,Standard,1.2,None,false,Swakopmund\nCLM-BATCH-003,45-55,Male,Married,Medium,Self-employed,true,Low,60,45,2,Commercial,200000-250000,6,Rural,true,true,Cloudy,Day,Agent,2,true,25000-35000,0.75,Online,High-risk,8.5,Staged,true,Walvis Bay"

/-! ## HTTP client (`services/api.ts`) -/

/-- `APP_CONFIG` from `config/api.ts`: the request timeout and the unused
retry constants, verbatim. -/
structure AppConfig where
  REQUEST_TIMEOUT : Nat
  MAX_RETRIES : Nat
  RETRY_DELAY : Nat

/-- The configuration values of `config/api.ts`. -/
def APP_CONFIG : AppConfig := ⟨30000, 3, 1000⟩

/-- The `ApiError` thrown by the client: a message and the optional
numeric status it was constructed with. -/
structure ApiErr where
  message : String
  status : Option Nat
deriving DecidableEq, Repr

/-- What `request` hands back on success: the JSON-parsed body when the
`content-type` header contains `application/json`, the raw text otherwise
(body parsing is abstracted to carrying the body string). -/
inductive RespValue where
  | json (body : String)
  | text (body : String)
deriving DecidableEq, Repr

/-- The outcome of one `fetch` attempt: a response (with its `ok` flag,
status, status text, `content-type` header and body), an abort fired by
the timeout, a network-level `Error`, or a thrown non-`Error` value. -/
inductive FetchOutcome where
  | resp (ok : Bool) (status : Nat) (statusText : String)
      (contentType : Option String) (body : String)
  | abortErr
  | netErr (msg : String)
  | thrownNonError
deriving DecidableEq, Repr

/-- `needle` occurs as a contiguous sublist of the second argument
(JS `String.prototype.includes`). -/
def isSubList (needle : List Char) : List Char → Bool
  | [] => needle.isEmpty
  | c :: rest => needle.isPrefixOf (c :: rest) || isSubList needle rest

/-- `contentType && contentType.includes('application/json')`. -/
def isJsonContentType : Option String → Bool
  | some ct => isSubList "application/json".data ct.data
  | none => false

/-- The `try`/`catch` body of `HttpClient.request` applied to the outcome
of its one `fetch` call: a non-ok response throws
`ApiError(HTTP status: statusText, status)`, an abort throws
`ApiError('Request timeout', 408)`, another `Error` throws
`ApiError(message, 0)`, a non-`Error` throws
`ApiError('Unknown error occurred', 0)`; an ok response returns its body. -/
def requestResult : FetchOutcome → Except ApiErr RespValue
  | .resp ok status statusText ct body =>
    if ok then
      .ok (if isJsonContentType ct then .json body else .text body)
    else
      .error ⟨"HTTP " ++ Nat.repr status ++ ": " ++ statusText, some status⟩
  | .abortErr => .error ⟨"Request timeout", some 408⟩
  | .netErr m => .error ⟨m, some 0⟩
  | .thrownNonError => .error ⟨"Unknown error occurred", some 0⟩

/-- `HttpClient.request` over a sequence of would-be fetch outcomes
(`fetchSeq n` is what the `n`-th fetch attempt would return): the source
contains a single `fetch` call and no loop, so only attempt `0` is
consumed; the second component records the number of fetch attempts made.
`maxRetries` is `APP_CONFIG.MAX_RETRIES`, available to the client but
never read by `request`. -/
def request (maxRetries : Nat) (fetchSeq : Nat → FetchOutcome) :
    Except ApiErr RespValue × Nat :=
  (requestResult (fetchSeq 0), 1)

/-- `HttpClient.get`: forwards to `request` with method GET. -/
def httpGet (maxRetries : Nat) (fetchSeq : Nat → FetchOutcome) :=
  request maxRetries fetchSeq

/-- `HttpClient.post`: forwards to `request` with method POST and a body. -/
def httpPost (maxRetries : Nat) (fetchSeq : Nat → FetchOutcome) :=
  request maxRetries fetchSeq

/-- `HttpClient.put`: forwards to `request` with method PUT and a body. -/
def httpPut (maxRetries : Nat) (fetchSeq : Nat → FetchOutcome) :=
  request maxRetries fetchSeq

/-- `HttpClient.delete`: forwards to `request` with method DELETE. -/
def httpDelete (maxRetries : Nat) (fetchSeq : Nat → FetchOutcome) :=
  request maxRetries fetchSeq

/-! ## Risk-bar bucketing (`pages/Claims.tsx`) -/

/-- The three risk buckets of the claims table's fraud-risk bar. -/
inductive RiskBucket where
  | low
  | medium
  | high
deriving DecidableEq, Repr

/-- Bucket rank, for stating monotonicity (Low < Medium < High). -/
def RiskBucket.rank : RiskBucket → Nat
  | .low => 0
  | .medium => 1
  | .high => 2

/-- JS `Math.round`: floor of `q + 1/2` (ties round toward positive
infinity, as in JS). -/
def jsRound (q : Rat) : Int := ⌊q + 1 / 2⌋

/-- `Math.round((claim.fraud_probability || 0) * 100)` — the integer
percentage shown and bucketed by `Claims.tsx` (`none` models a claim
without a prediction). -/
def fraudProbabilityPct (p : Option Rat) : Int := jsRound (p.getD 0 * 100)

/-- The risk bucket of the fraud-risk bar in `Claims.tsx`:
`fraudProbability > 70` is High, `> 40` Medium, else Low, computed on the
rounded integer percentage. -/
def riskBarBucket (p : Option Rat) : RiskBucket :=
  if 70 < fraudProbabilityPct p then .high
  else if 40 < fraudProbabilityPct p then .medium
  else .low

/-- The risk bucket the claim's wording assigns directly to the raw
probability: High when `p > 0.7`, Medium when `p > 0.4`, else Low. Stated
from the spec's words, for comparison with `riskBarBucket`. -/
def specRiskBucket (p : Rat) : RiskBucket :=
  if 7 / 10 < p then .high
  else if 2 / 5 < p then .medium
  else .low

/-! ## `transformFormData` (NewClaim form) -/

/-- The new-claim form state: every field is a string, as React holds it. -/
structure FormData where
  ageGroup : String
  gender : String
  maritalStatus : String
  incomeBand : String
  employmentStatus : String
  addressChange : String
  deductibleLevel : String
  daysPolicyAccident : String
  daysPolicyClaim : String
  pastClaims : String
  vehicleCategory : String
  vehiclePriceRange : String
  vehicleAge : String
  accidentArea : String
  policeReport : String
  witnessPresent : String
  weatherCondition : String
  accidentTime : String
  agentType : String
  claimAmendments : String
  addressChangeLinked : String
  claimAmountRange : String
  payoutRatio : String
  claimChannel : String
  repairShopPattern : String
  fraudPercentage : String
  fraudType : String
  highRiskCombination : String
  region : String
deriving DecidableEq, Repr

/-- The claim record posted to `createClaim` by the new-claim form. -/
structure ClaimRecord where
  claim_id : String
  age_group : String
  gender : String
  marital_status : String
  income_band : String
  employment_status : String
  address_change_last_6_months : Bool
  deductible_level : String
  days_policy_accident : Int
  days_policy_claim : Int
  past_number_of_claims : Int
  vehicle_category : String
  vehicle_price_range : String
  vehicle_age_years : Int
  accident_area : String
  police_report_filed : Bool
  witness_present : Bool
  weather_condition : String
  accident_time : String
  agent_type : String
  claim_amendments : Int
  address_change_linked_to_claim : Bool
  claim_amount_range : String
  payout_to_claim_ratio : Rat
  claim_channel : String
  repair_shop_pattern : String
  fraud_percentage_estimate : Rat
  fraud_type : String
  high_risk_combination : Bool
  region : String
deriving DecidableEq, Repr

/-- The last `n` characters of a list, JS `slice(-n)` (whole list when
shorter). -/
def takeRightChars (n : Nat) (l : List Char) : List Char := l.drop (l.length - n)

/-- `generateClaimId`: `CLM-` followed by the last six digits of
`Date.now()` (`now` is the millisecond timestamp). -/
def generateClaimId (now : Nat) : String :=
  "CLM-" ++ String.mk (takeRightChars 6 (Nat.repr now).data)

/-- `transformFormData` from the new-claim form: string fields verbatim,
yes/no radio fields to booleans via `=== "yes"`, numeric fields via
`parseInt(x) || 0` / `parseFloat(x) || 0`. -/
def transformFormData (now : Nat) (fd : FormData) : ClaimRecord where
  claim_id := generateClaimId now
  age_group := fd.ageGroup
  gender := fd.gender
  marital_status := fd.maritalStatus
  income_band := fd.incomeBand
  employment_status := fd.employmentStatus
  address_change_last_6_months := fd.addressChange == "yes"
  deductible_level := fd.deductibleLevel
  days_policy_accident := jsParseIntOr0 fd.daysPolicyAccident
  days_policy_claim := jsParseIntOr0 fd.daysPolicyClaim
  past_number_of_claims := jsParseIntOr0 fd.pastClaims
  vehicle_category := fd.vehicleCategory
  vehicle_price_range := fd.vehiclePriceRange
  vehicle_age_years := jsParseIntOr0 fd.vehicleAge
  accident_area := fd.accidentArea
  police_report_filed := fd.policeReport == "yes"
  witness_present := fd.witnessPresent == "yes"
  weather_condition := fd.weatherCondition
  accident_time := fd.accidentTime
  agent_type := fd.agentType
  claim_amendments := jsParseIntOr0 fd.claimAmendments
  address_change_linked_to_claim := fd.addressChangeLinked == "yes"
  claim_amount_range := fd.claimAmountRange
  payout_to_claim_ratio := jsParseFloatOr0 fd.payoutRatio
  claim_channel := fd.claimChannel
  repair_shop_pattern := fd.repairShopPattern
  fraud_percentage_estimate := jsParseFloatOr0 fd.fraudPercentage
  fraud_type := fd.fraudType
  high_risk_combination := fd.highRiskCombination == "yes"
  region := fd.region

/-- Left-pad a string with zeros to length `k`. -/
def padZeros (k : Nat) (s : String) : String :=
  String.mk (List.replicate (k - s.length) '0') ++ s

/-- Decimal rendering of the integer `m` scaled down by `10 ^ k`: sign,
integer part, and `k` fractional digits when `k > 0`. -/
def decDigitsRender (m : Int) (k : Nat) : String :=
  let a := m.natAbs
  let sign := if m < 0 then "-" else ""
  if k = 0 then sign ++ Nat.repr a
  else sign ++ Nat.repr (a / 10 ^ k) ++ "." ++ padZeros k (Nat.repr (a % 10 ^ k))

/-- Canonical decimal rendering of a rational: the shortest decimal string
(no exponent, no trailing zeros) whose `parseFloat` value is `q`; `none`
when `q` has no finite decimal expansion of at most 30 fractional digits.
Used to say which user inputs are canonically written. -/
def decRender (q : Rat) : Option String :=
  match (List.range 31).find? (fun k => (q * (10 : Rat) ^ k).den = 1) with
  | none => none
  | some k => some (decDigitsRender ((q * (10 : Rat) ^ k).num) k)

/-- Reading a stored claim record back into the form's string
representation. Modelled from the spec: the round-trip direction of
"the stored record round-trips all submitted fields unchanged" — numbers
render back to their canonical decimal strings, booleans to the yes/no
radio choice. -/
def readBackFormData (r : ClaimRecord) : FormData where
  ageGroup := r.age_group
  gender := r.gender
  maritalStatus := r.marital_status
  incomeBand := r.income_band
  employmentStatus := r.employment_status
  addressChange := if r.address_change_last_6_months then "yes" else "no"
  deductibleLevel := r.deductible_level
  daysPolicyAccident := Int.repr r.days_policy_accident
  daysPolicyClaim := Int.repr r.days_policy_claim
  pastClaims := Int.repr r.past_number_of_claims
  vehicleCategory := r.vehicle_category
  vehiclePriceRange := r.vehicle_price_range
  vehicleAge := Int.repr r.vehicle_age_years
  accidentArea := r.accident_area
  policeReport := if r.police_report_filed then "yes" else "no"
  witnessPresent := if r.witness_present then "yes" else "no"
  weatherCondition := r.weather_condition
  accidentTime := r.accident_time
  agentType := r.agent_type
  claimAmendments := Int.repr r.claim_amendments
  addressChangeLinked := if r.address_change_linked_to_claim then "yes" else "no"
  claimAmountRange := r.claim_amount_range
  payoutRatio := (decRender r.payout_to_claim_ratio).getD ""
  claimChannel := r.claim_channel
  repairShopPattern := r.repair_shop_pattern
  fraudPercentage := (decRender r.fraud_percentage_estimate).getD ""
  fraudType := r.fraud_type
  highRiskCombination := if r.high_risk_combination then "yes" else "no"
  region := r.region

/-- A canonically written integer input: the string is exactly the
decimal rendering of its own `parseInt(x) || 0` value. -/
def canonIntStr (s : String) : Prop := Int.repr (jsParseIntOr0 s) = s

/-- A canonically written decimal input: the string is exactly the
canonical decimal rendering of its own `parseFloat(x) || 0` value. -/
def canonDecStr (s : String) : Prop := decRender (jsParseFloatOr0 s) = some s

/-- A fully and canonically filled new-claim form: every yes/no radio
group is answered and every numeric input is written canonically. -/
def FormValid (fd : FormData) : Prop :=
  canonIntStr fd.daysPolicyAccident ∧
  canonIntStr fd.daysPolicyClaim ∧
  canonIntStr fd.pastClaims ∧
  canonIntStr fd.vehicleAge ∧
  canonIntStr fd.claimAmendments ∧
  canonDecStr fd.payoutRatio ∧
  canonDecStr fd.fraudPercentage ∧
  (fd.addressChange = "yes" ∨ fd.addressChange = "no") ∧
  (fd.policeReport = "yes" ∨ fd.policeReport = "no") ∧
  (fd.witnessPresent = "yes" ∨ fd.witnessPresent = "no") ∧
  (fd.addressChangeLinked = "yes" ∨ fd.addressChangeLinked = "no") ∧
  (fd.highRiskCombination = "yes" ∨ fd.highRiskCombination = "no")

instance (s : String) : Decidable (canonIntStr s) := by
  unfold canonIntStr; infer_instance

instance (s : String) : Decidable (canonDecStr s) := by
  unfold canonDecStr; infer_instance

instance (fd : FormData) : Decidable (FormValid fd) := by
  unfold FormValid; infer_instance

/-- The five fields `validateClaim` checks with `parseInt`, in source
order. -/
def intTypedFields : List String :=
  ["days_policy_accident", "days_policy_claim", "past_number_of_claims",
   "vehicle_age_years", "claim_amendments"]

/-- The two fields `validateClaim` checks with `parseFloat`, in source
order. -/
def floatTypedFields : List String :=
  ["payout_to_claim_ratio", "fraud_percentage_estimate"]

/-- The five fields `validateClaim` checks for `'true'`/`'false'`, in
source order. -/
def boolTypedFields : List String :=
  ["address_change_last_6_months", "police_report_filed", "witness_present",
   "address_change_linked_to_claim", "high_risk_combination"]

end ClaimGuard

namespace ClaimGuard

/-! ## Theorems -/

/-- Helper: the rounded percentage exceeds 70 exactly on `p ≥ 0.705`. -/
theorem pct_gt_70_iff (p : Rat) :
    70 < fraudProbabilityPct (some p) ↔ 141 / 200 ≤ p := by
  unfold fraudProbabilityPct jsRound
  rw [Option.getD_some, Int.lt_iff_add_one_le, Int.le_floor]
  constructor <;> intro h <;> · push_cast at h ⊢; linarith

/-- Helper: the rounded percentage exceeds 40 exactly on `p ≥ 0.405`. -/
theorem pct_gt_40_iff (p : Rat) :
    40 < fraudProbabilityPct (some p) ↔ 81 / 200 ≤ p := by
  unfold fraudProbabilityPct jsRound
  rw [Option.getD_some, Int.lt_iff_add_one_le, Int.le_floor]
  constructor <;> intro h <;> · push_cast at h ⊢; linarith

/-- Helper: the bar shows the High bucket exactly on `p ≥ 0.705`. -/
theorem riskBarBucket_high_iff (p : Rat) :
    riskBarBucket (some p) = RiskBucket.high ↔ 141 / 200 ≤ p := by
  unfold riskBarBucket
  split_ifs with h1 h2
  · simp [(pct_gt_70_iff p).mp h1]
  · rw [pct_gt_70_iff] at h1
    simp [h1]
  · rw [pct_gt_70_iff] at h1
    simp [h1]

/-- Helper: the bar shows the Medium bucket exactly on `0.405 ≤ p < 0.705`. -/
theorem riskBarBucket_medium_iff (p : Rat) :
    riskBarBucket (some p) = RiskBucket.medium ↔ 81 / 200 ≤ p ∧ p < 141 / 200 := by
  unfold riskBarBucket
  split_ifs with h1 h2
  · rw [pct_gt_70_iff] at h1
    simp only [reduceCtorEq, false_iff, not_and, not_lt]
    exact fun _ => h1
  · rw [pct_gt_70_iff] at h1
    rw [pct_gt_40_iff] at h2
    simp [h2, lt_of_not_le h1]
  · rw [pct_gt_40_iff] at h2
    simp only [reduceCtorEq, false_iff, not_and, not_lt]
    exact fun hcon => absurd hcon h2
/-- Helper: the bar shows the Low bucket exactly on `p < 0.405`. -/
theorem riskBarBucket_low_iff (p : Rat) :
    riskBarBucket (some p) = RiskBucket.low ↔ p < 81 / 200 := by
  unfold riskBarBucket
  split_ifs with h1 h2
  · rw [pct_gt_70_iff] at h1
    simp only [reduceCtorEq, false_iff, not_lt]
    linarith
  · rw [pct_gt_40_iff] at h2
    simp [not_lt.mpr h2]
  · rw [pct_gt_40_iff] at h2
    simp [lt_of_not_le h2]

/-- C1 (counterexample): at the fraud probability `p = 0.702` the claim's
rule demands the High bucket (`p > 0.7`), and the spec-worded bucketing
indeed gives High, but `Claims.tsx` rounds to the integer percentage `70`
first, which fails `> 70`, so the code renders the Medium bucket. -/
theorem riskBucket_claim_counterexample :
    (7 / 10 : Rat) < 351 / 500 ∧
    specRiskBucket (351 / 500) = RiskBucket.high ∧
    riskBarBucket (some (351 / 500)) ≠ RiskBucket.high ∧
    riskBarBucket (some (351 / 500)) = RiskBucket.medium := by
  refine ⟨by norm_num, ?_, ?_, ?_⟩
  · unfold specRiskBucket
    rw [if_pos (by norm_num)]
  · rw [Ne, riskBarBucket_high_iff]
    norm_num
  · rw [riskBarBucket_medium_iff]
    norm_num

/-- C1 (amended): the bucket of the fraud-risk bar is a deterministic,
monotone function of the probability, computed on the rounded integer
percentage `round(100·p)`: High exactly when that exceeds 70 (i.e.
`p ≥ 0.705`), Medium exactly when it exceeds 40 but not 70 (i.e.
`0.405 ≤ p < 0.705`), and Low otherwise; `p = 0.75` maps to High,
`p = 0.5` to Medium and `p = 0.2` to Low. -/
theorem riskBucket_rounded_monotone :
    (∀ p1 p2 : Rat, p1 ≤ p2 →
      (riskBarBucket (some p1)).rank ≤ (riskBarBucket (some p2)).rank) ∧
    (∀ p : Rat, riskBarBucket (some p) = RiskBucket.high ↔ 141 / 200 ≤ p) ∧
    (∀ p : Rat, riskBarBucket (some p) = RiskBucket.medium ↔
      81 / 200 ≤ p ∧ p < 141 / 200) ∧
    (∀ p : Rat, riskBarBucket (some p) = RiskBucket.low ↔ p < 81 / 200) ∧
    riskBarBucket (some (3 / 4)) = RiskBucket.high ∧
    riskBarBucket (some (1 / 2)) = RiskBucket.medium ∧
    riskBarBucket (some (1 / 5)) = RiskBucket.low := by
  refine ⟨?_, riskBarBucket_high_iff, riskBarBucket_medium_iff, riskBarBucket_low_iff,
    (riskBarBucket_high_iff _).mpr (by norm_num),
    (riskBarBucket_medium_iff _).mpr (by norm_num),
    (riskBarBucket_low_iff _).mpr (by norm_num)⟩
  intro p1 p2 hle
  rcases le_or_lt (141 / 200 : Rat) p1 with hc1 | hc1
  · rw [(riskBarBucket_high_iff p1).mpr hc1, (riskBarBucket_high_iff p2).mpr (le_trans hc1 hle)]
  rcases le_or_lt (81 / 200 : Rat) p1 with hc2 | hc2
  · have h1 : riskBarBucket (some p1) = RiskBucket.medium :=
      (riskBarBucket_medium_iff p1).mpr ⟨hc2, hc1⟩
    rcases le_or_lt (141 / 200 : Rat) p2 with hd | hd
    · rw [h1, (riskBarBucket_high_iff p2).mpr hd]
      decide
    · rw [h1, (riskBarBucket_medium_iff p2).mpr ⟨le_trans hc2 hle, hd⟩]
  · rw [(riskBarBucket_low_iff p1).mpr hc2]
    simp [RiskBucket.rank]

/-- C1 (witness for the amended theorem): monotonicity applied at the
concrete pair `0.2 ≤ 0.75`, and the High characterization at `0.75`. -/
theorem riskBucket_rounded_monotone_witness :
    (riskBarBucket (some (1 / 5))).rank ≤ (riskBarBucket (some (3 / 4))).rank ∧
    riskBarBucket (some (3 / 4)) = RiskBucket.high :=
  ⟨riskBucket_rounded_monotone.1 (1 / 5) (3 / 4) (by norm_num),
   (riskBucket_rounded_monotone.2.1 (3 / 4)).mpr (by norm_num)⟩

/-- C8: a call through `HttpClient.request` returns the parsed body
exactly when the fetch produced an ok response; otherwise it throws an
`ApiError` whose status is the response's status code for a non-ok
response, 408 for a timeout abort, and 0 for any other failure. -/
theorem request_error_status_spec (mr : Nat) (seq : Nat → FetchOutcome) :
    ((request mr seq).1.isOk = true ↔
      ∃ st stext ct body, seq 0 = FetchOutcome.resp true st stext ct body) ∧
    (∀ st stext ct body, seq 0 = FetchOutcome.resp true st stext ct body →
      (request mr seq).1 =
        Except.ok (if isJsonContentType ct then RespValue.json body else RespValue.text body)) ∧
    (∀ st stext ct body, seq 0 = FetchOutcome.resp false st stext ct body →
      (request mr seq).1 =
        Except.error ⟨"HTTP " ++ Nat.repr st ++ ": " ++ stext, some st⟩) ∧
    (seq 0 = FetchOutcome.abortErr →
      (request mr seq).1 = Except.error ⟨"Request timeout", some 408⟩) ∧
    (∀ m, seq 0 = FetchOutcome.netErr m →
      (request mr seq).1 = Except.error ⟨m, some 0⟩) ∧
    (seq 0 = FetchOutcome.thrownNonError →
      (request mr seq).1 = Except.error ⟨"Unknown error occurred", some 0⟩) := by
  unfold request
  refine ⟨?_, ?_, ?_, ?_, ?_, ?_⟩
  · cases h : seq 0 with
    | resp ok st stext ct body =>
      cases ok
      · simp [requestResult, Except.isOk, Except.toBool]
      · simp only [requestResult, if_true]
        exact ⟨fun _ => ⟨st, stext, ct, body, rfl⟩, fun _ => rfl⟩
    | abortErr => simp [requestResult, Except.isOk, Except.toBool]
    | netErr m => simp [requestResult, Except.isOk, Except.toBool]
    | thrownNonError => simp [requestResult, Except.isOk, Except.toBool]
  · intro st stext ct body h
    simp [h, requestResult]
  · intro st stext ct body h
    simp [h, requestResult]
  · intro h
    simp [h, requestResult]
  · intro m h
    simp [h, requestResult]
  · intro h
    simp [h, requestResult]

/-- C8 (witness): at a concrete aborted fetch the client throws the 408
timeout error. -/
theorem request_error_status_spec_witness :
    (request 3 (fun _ => FetchOutcome.abortErr)).1 =
      Except.error ⟨"Request timeout", some 408⟩ :=
  (request_error_status_spec 3 (fun _ => FetchOutcome.abortErr)).2.2.2.1 rfl

/-- C7: `request` makes exactly one fetch attempt, its outcome depends
only on that first attempt and never on the retry configuration
(`APP_CONFIG.MAX_RETRIES`, `RETRY_DELAY` are never read), a failed
attempt surfaces as an error with no re-attempt, and all four client
methods (`get`, `post`, `put`, `delete`) forward to this single-attempt
`request`. -/
theorem request_no_retry (mr mr2 : Nat) (seq seq2 : Nat → FetchOutcome) :
    (request mr seq).2 = 1 ∧
    request mr seq = request APP_CONFIG.MAX_RETRIES seq ∧
    (seq 0 = seq2 0 → request mr seq = request mr2 seq2) ∧
    ((∀ st stext ct body, seq 0 ≠ FetchOutcome.resp true st stext ct body) →
      (request mr seq).1.isOk = false) ∧
    httpGet mr seq = request mr seq ∧
    httpPost mr seq = request mr seq ∧
    httpPut mr seq = request mr seq ∧
    httpDelete mr seq = request mr seq := by
  refine ⟨rfl, rfl, ?_, ?_, rfl, rfl, rfl, rfl⟩
  · intro h
    unfold request
    rw [h]
  · intro h
    cases ho : seq 0 with
    | resp ok st stext ct body =>
      cases ok
      · simp [request, ho, requestResult, Except.isOk, Except.toBool]
      · exact absurd ho (h st stext ct body)
    | abortErr => simp [request, ho, requestResult, Except.isOk, Except.toBool]
    | netErr m => simp [request, ho, requestResult, Except.isOk, Except.toBool]
    | thrownNonError => simp [request, ho, requestResult, Except.isOk, Except.toBool]

/-- C7 (witness): a concrete failing fetch, under two different retry
settings: one attempt is made, the result is identical, and it is an
error. -/
theorem request_no_retry_witness :
    (request 3 (fun _ => FetchOutcome.netErr "down")).2 = 1 ∧
    request 3 (fun _ => FetchOutcome.netErr "down") =
      request 7 (fun _ => FetchOutcome.netErr "down") ∧
    (request 3 (fun _ => FetchOutcome.netErr "down")).1.isOk = false :=
  ⟨(request_no_retry 3 7 (fun _ => FetchOutcome.netErr "down")
      (fun _ => FetchOutcome.netErr "down")).1,
   (request_no_retry 3 7 (fun _ => FetchOutcome.netErr "down")
      (fun _ => FetchOutcome.netErr "down")).2.2.1 rfl,
   (request_no_retry 3 7 (fun _ => FetchOutcome.netErr "down")
      (fun _ => FetchOutcome.netErr "down")).2.2.2.1
     (fun st stext ct body h => by cases h)⟩

/-- Helper: the per-claim loop emits exactly one result entry per row,
whatever the oracle answers. -/
theorem processClaims_results_length (o : ApiOracle) :
    ∀ (rows : List Obj) (c p : Nat),
      (processClaims o rows c p).results.length = rows.length := by
  intro rows
  induction rows with
  | nil => intro c p; rfl
  | cons claim rest ih =>
    intro c p
    by_cases hv : (validateClaim claim).isEmpty
    · rcases hc : o.create c with m | id
      · simp [processClaims, hv, hc, ih]
      · rcases hp : o.predict p with m2 | u
        · simp [processClaims, hv, hc, hp, ih]
        · simp [processClaims, hv, hc, hp, ih]
    · simp [processClaims, hv, ih]

/-- Helper: the rows passed to `createClaim` are exactly the rows that
pass validation, in order, whatever the oracle answers. -/
theorem processClaims_createArgs (o : ApiOracle) :
    ∀ (rows : List Obj) (c p : Nat),
      (processClaims o rows c p).createArgs =
        rows.filter (fun r => (validateClaim r).isEmpty) := by
  intro rows
  induction rows with
  | nil => intro c p; rfl
  | cons claim rest ih =>
    intro c p
    by_cases hv : (validateClaim claim).isEmpty
    · rcases hc : o.create c with m | id
      · simp [processClaims, hv, hc, ih, List.filter_cons]
      · rcases hp : o.predict p with m2 | u
        · simp [processClaims, hv, hc, hp, ih, List.filter_cons]
        · simp [processClaims, hv, hc, hp, ih, List.filter_cons]
    · simp [processClaims, hv, ih, List.filter_cons]

/-- Helper: a string starting with `API error: ` is never empty. -/
theorem apiErrorMsg_ne_empty (m : String) : ("API error: " ++ m) ≠ "" := by
  intro h
  have hlen : ("API error: " ++ m).length = ("" : String).length :=
    congrArg String.length h
  rw [String.length_append] at hlen
  have h1 : ("API error: " : String).length = 11 := rfl
  have h2 : ("" : String).length = 0 := rfl
  omega

/-- Helper: counting a boolean predicate and its negation covers the
whole list. -/
theorem countP_bool_split {α : Type} (l : List α) (pr : α → Bool) :
    l.countP pr + l.countP (fun a => !pr a) = l.length := by
  induction l with
  | nil => rfl
  | cons a t ih =>
    rw [List.countP_cons, List.countP_cons, List.length_cons]
    cases h : pr a <;> simp [h] <;> omega

/-- Helper: the `j`-th result entry is the validation-error entry exactly
when the `j`-th row fails validation. -/
theorem processClaims_valErr_iff (o : ApiOracle) :
    ∀ (rows : List Obj) (c p j : Nat) (hj : j < rows.length),
      (validateClaim rows[j] ≠ [] ↔
        ∃ e, (processClaims o rows c p).results[j]? = some e ∧ e.status = "error" ∧
          e.message = String.intercalate ", " (validateClaim rows[j])) := by
  intro rows
  induction rows with
  | nil => intro c p j hj; simp at hj
  | cons claim rest ih =>
    intro c p j hj
    cases j with
    | zero =>
      simp only [List.getElem_cons_zero]
      by_cases hv : (validateClaim claim).isEmpty
      · have hv' : validateClaim claim = [] := by
          simpa using hv
        rcases hc : o.create c with m | id
        · have hr : (processClaims o (claim :: rest) c p).results =
              ⟨objGet claim "rowNumber", claimIdFallback claim, "error",
                "API error: " ++ m⟩ :: (processClaims o rest (c + 1) p).results := by
            simp [processClaims, hv, hc]
          rw [hv', hr]
          simp only [List.getElem?_cons_zero]
          constructor
          · intro hcon; exact absurd rfl hcon
          · rintro ⟨e, he, hst, hmsg⟩
            obtain rfl := Option.some.inj he
            have hmsg' : ("API error: " ++ m) = "" := hmsg
            exact absurd hmsg' (apiErrorMsg_ne_empty m)
        · rcases hp : o.predict p with m2 | u
          · have hr : (processClaims o (claim :: rest) c p).results =
                ⟨objGet claim "rowNumber", id, "warning",
                  "Claim created but prediction failed: " ++ m2⟩ ::
                  (processClaims o rest (c + 1) (p + 1)).results := by
              simp [processClaims, hv, hc, hp]
            rw [hv', hr]
            simp only [List.getElem?_cons_zero]
            constructor
            · intro hcon; exact absurd rfl hcon
            · rintro ⟨e, he, hst, hmsg⟩
              obtain rfl := Option.some.inj he
              have hst' : ("warning" : String) = "error" := hst
              exact absurd hst' (by decide)
          · have hr : (processClaims o (claim :: rest) c p).results =
                ⟨objGet claim "rowNumber", id, "success",
                  "Processed successfully with fraud prediction"⟩ ::
                  (processClaims o rest (c + 1) (p + 1)).results := by
              simp [processClaims, hv, hc, hp]
            rw [hv', hr]
            simp only [List.getElem?_cons_zero]
            constructor
            · intro hcon; exact absurd rfl hcon
            · rintro ⟨e, he, hst, hmsg⟩
              obtain rfl := Option.some.inj he
              have hst' : ("success" : String) = "error" := hst
              exact absurd hst' (by decide)
      · have hv' : validateClaim claim ≠ [] := by
          simpa using hv
        have hr : (processClaims o (claim :: rest) c p).results =
            ⟨objGet claim "rowNumber", claimIdFallback claim, "error",
              String.intercalate ", " (validateClaim claim)⟩ ::
              (processClaims o rest c p).results := by
          simp [processClaims, hv]
        rw [hr]
        simp only [List.getElem?_cons_zero]
        exact ⟨fun _ => ⟨_, rfl, rfl, rfl⟩, fun _ => hv'⟩
    | succ k =>
      have hk : k < rest.length := by simpa using hj
      simp only [List.getElem_cons_succ]
      by_cases hv : (validateClaim claim).isEmpty
      · rcases hc : o.create c with m | id
        · simpa [processClaims, hv, hc] using ih (c + 1) p k hk
        · rcases hp : o.predict p with m2 | u
          · simpa [processClaims, hv, hc, hp] using ih (c + 1) (p + 1) k hk
          · simpa [processClaims, hv, hc, hp] using ih (c + 1) (p + 1) k hk
      · simpa [processClaims, hv] using ih c p k hk

/-- Helper: every result entry carries one of the three statuses. -/
theorem processClaims_status_mem (o : ApiOracle) :
    ∀ (rows : List Obj) (c p : Nat) (e : BatchResult),
      e ∈ (processClaims o rows c p).results →
      e.status = "success" ∨ e.status = "warning" ∨ e.status = "error" := by
  intro rows
  induction rows with
  | nil => intro c p e he; simp [processClaims] at he
  | cons claim rest ih =>
    intro c p e he
    by_cases hv : (validateClaim claim).isEmpty
    · rcases hc : o.create c with m | id
      · simp only [processClaims, hv, if_true, hc] at he
        rcases List.mem_cons.mp he with rfl | hmem
        · right; right; rfl
        · exact ih (c + 1) p e hmem
      · rcases hp : o.predict p with m2 | u
        · simp only [processClaims, hv, if_true, hc, hp] at he
          rcases List.mem_cons.mp he with rfl | hmem
          · right; left; rfl
          · exact ih (c + 1) (p + 1) e hmem
        · simp only [processClaims, hv, if_true, hc, hp] at he
          rcases List.mem_cons.mp he with rfl | hmem
          · left; rfl
          · exact ih (c + 1) (p + 1) e hmem
    · simp only [processClaims, hv, if_false] at he
      rcases List.mem_cons.mp he with rfl | hmem
      · right; right; rfl
      · exact ih c p e hmem

/-- C2: for a batch whose rows split into `M` failing validation and
`N − M` passing it, exactly `M` result entries are validation errors
(entry `j` is the validation-error entry exactly when row `j` fails
validation), and exactly the `N − M` valid rows are submitted to
`createClaim`, one call per valid row and none for an invalid row. -/
theorem batch_validation_errors_and_submissions (o : ApiOracle) (rows : List Obj)
    (c p : Nat) :
    (processClaims o rows c p).results.length = rows.length ∧
    (processClaims o rows c p).createArgs =
      rows.filter (fun r => (validateClaim r).isEmpty) ∧
    (processClaims o rows c p).createArgs.length +
      rows.countP (fun r => !(validateClaim r).isEmpty) = rows.length ∧
    ∀ j (hj : j < rows.length),
      (validateClaim rows[j] ≠ [] ↔
        ∃ e, (processClaims o rows c p).results[j]? = some e ∧ e.status = "error" ∧
          e.message = String.intercalate ", " (validateClaim rows[j])) := by
  refine ⟨processClaims_results_length o rows c p, processClaims_createArgs o rows c p,
    ?_, processClaims_valErr_iff o rows c p⟩
  rw [processClaims_createArgs o rows c p, ← List.countP_eq_length_filter]
  exact countP_bool_split rows _

/-- C2 (witness): a one-row batch whose row is empty (all 30 required
fields missing): its entry is the validation-error entry. -/
theorem batch_validation_errors_witness :
    validateClaim ([] : Obj) ≠ [] ↔
      ∃ e, (processClaims ⟨fun n => .ok (Nat.repr n), fun _ => .ok ()⟩
          [([] : Obj)] 0 0).results[0]? = some e ∧ e.status = "error" ∧
        e.message = String.intercalate ", " (validateClaim ([] : Obj)) :=
  (batch_validation_errors_and_submissions
      ⟨fun n => .ok (Nat.repr n), fun _ => .ok ()⟩ [([] : Obj)] 0 0).2.2.2 0
      (by decide)

/-- C4: every parsed row yields exactly one result entry, carrying status
`success` (claim created and prediction succeeded), `warning` (claim
created but prediction failed) or `error` (validation failed or claim
creation failed); processing one row never prevents the remaining rows
from being processed — the tail of the results is the full run of the
remaining rows, under every oracle. -/
theorem batch_per_row_status (o : ApiOracle) (rows : List Obj) (c p : Nat) :
    (processClaims o rows c p).results.length = rows.length ∧
    (∀ e ∈ (processClaims o rows c p).results,
      e.status = "success" ∨ e.status = "warning" ∨ e.status = "error") ∧
    (∀ (claim : Obj) (rest : List Obj) (c2 p2 : Nat), ∃ e c3 p3,
      (processClaims o (claim :: rest) c2 p2).results =
        e :: (processClaims o rest c3 p3).results ∧
      (e.status = "success" ↔ validateClaim claim = [] ∧
        (o.create c2).isOk = true ∧ (o.predict p2).isOk = true) ∧
      (e.status = "warning" ↔ validateClaim claim = [] ∧
        (o.create c2).isOk = true ∧ (o.predict p2).isOk = false) ∧
      (e.status = "error" ↔ validateClaim claim ≠ [] ∨
        (validateClaim claim = [] ∧ (o.create c2).isOk = false))) := by
  refine ⟨processClaims_results_length o rows c p,
    fun e he => processClaims_status_mem o rows c p e he, ?_⟩
  intro claim rest c2 p2
  by_cases hv : (validateClaim claim).isEmpty
  · have hv' : validateClaim claim = [] := by simpa using hv
    rcases hc : o.create c2 with m | newId
    · refine ⟨⟨objGet claim "rowNumber", claimIdFallback claim, "error",
          "API error: " ++ m⟩, c2 + 1, p2,
        by simp [processClaims, hv, hc], ?_, ?_, ?_⟩
      · simp [hc, Except.isOk, Except.toBool]
      · simp [hc, Except.isOk, Except.toBool]
      · simp [hv', hc, Except.isOk, Except.toBool]
    · rcases hp : o.predict p2 with m2 | u
      · refine ⟨⟨objGet claim "rowNumber", newId, "warning",
            "Claim created but prediction failed: " ++ m2⟩, c2 + 1, p2 + 1,
          by simp [processClaims, hv, hc, hp], ?_, ?_, ?_⟩
        · simp [hp, Except.isOk, Except.toBool]
        · simp [hv', hc, hp, Except.isOk, Except.toBool]
        · simp [hv', hc, Except.isOk, Except.toBool]
      · refine ⟨⟨objGet claim "rowNumber", newId, "success",
            "Processed successfully with fraud prediction"⟩, c2 + 1, p2 + 1,
          by simp [processClaims, hv, hc, hp], ?_, ?_, ?_⟩
        · simp [hv', hc, hp, Except.isOk, Except.toBool]
        · simp [hp, Except.isOk, Except.toBool]
        · simp [hv', hc, Except.isOk, Except.toBool]
  · have hv' : validateClaim claim ≠ [] := by simpa using hv
    refine ⟨⟨objGet claim "rowNumber", claimIdFallback claim, "error",
        String.intercalate ", " (validateClaim claim)⟩, c2, p2,
      by simp [processClaims, hv], ?_, ?_, ?_⟩
    · simp [hv']
    · simp [hv']
    · simp [hv']

/-- C4 (witness): the per-cons conjunct applied to a concrete two-row
batch under an oracle whose first create call fails. -/
theorem batch_per_row_status_witness :
    ∃ e c3 p3,
      (processClaims ⟨fun n => if n = 0 then .error "boom" else .ok "SRV",
          fun _ => .ok ()⟩ (([] : Obj) :: [([] : Obj)]) 0 0).results =
        e :: (processClaims ⟨fun n => if n = 0 then .error "boom" else .ok "SRV",
          fun _ => .ok ()⟩ [([] : Obj)] c3 p3).results ∧
      (e.status = "success" ↔ validateClaim ([] : Obj) = [] ∧
        ((⟨fun n => if n = 0 then .error "boom" else .ok "SRV",
            fun _ => .ok ()⟩ : ApiOracle).create 0).isOk = true ∧
        ((⟨fun n => if n = 0 then .error "boom" else .ok "SRV",
            fun _ => .ok ()⟩ : ApiOracle).predict 0).isOk = true) ∧
      (e.status = "warning" ↔ validateClaim ([] : Obj) = [] ∧
        ((⟨fun n => if n = 0 then .error "boom" else .ok "SRV",
            fun _ => .ok ()⟩ : ApiOracle).create 0).isOk = true ∧
        ((⟨fun n => if n = 0 then .error "boom" else .ok "SRV",
            fun _ => .ok ()⟩ : ApiOracle).predict 0).isOk = false) ∧
      (e.status = "error" ↔ validateClaim ([] : Obj) ≠ [] ∨
        (validateClaim ([] : Obj) = [] ∧
          ((⟨fun n => if n = 0 then .error "boom" else .ok "SRV",
              fun _ => .ok ()⟩ : ApiOracle).create 0).isOk = false)) :=
  (batch_per_row_status ⟨fun n => if n = 0 then .error "boom" else .ok "SRV",
      fun _ => .ok ()⟩ [([] : Obj)] 0 0).2.2 ([] : Obj) [([] : Obj)] 0 0

/-- C10: the per-claim loop never truncates: it attempts every parsed
row, whatever their number — in particular a batch of 1001 rows, above
the interface's stated 1000-claim maximum, still yields 1001 entries. -/
theorem batch_no_row_limit (o : ApiOracle) (rows : List Obj) (c p : Nat) :
    (processClaims o rows c p).results.length = rows.length ∧
    (processClaims o (List.replicate 1001 ([] : Obj)) 0 0).results.length = 1001 ∧
    1000 < 1001 :=
  ⟨processClaims_results_length o rows c p,
   by rw [processClaims_results_length, List.length_replicate], by norm_num⟩

set_option maxRecDepth 8000 in
/-- C5 (counterexample): two runs of the batch upload on the same CSV
template — even against different backends, one healthy and one failing —
submit exactly the same claim identifiers, `CLM-BATCH-001..003`, taken
verbatim from the CSV; the identifiers submitted in the second run do not
differ from those of the first. -/
theorem batch_resubmit_counterexample :
    (processClaims ⟨fun n => .ok ("A" ++ Nat.repr n), fun _ => .ok ()⟩
        (parseCSV csvTemplate) 0 0).createArgs.map (fun r => objGet r "claim_id") =
      (processClaims ⟨fun _ => .error "server unavailable", fun _ => .error "down"⟩
        (parseCSV csvTemplate) 0 0).createArgs.map (fun r => objGet r "claim_id") ∧
    (processClaims ⟨fun n => .ok ("A" ++ Nat.repr n), fun _ => .ok ()⟩
        (parseCSV csvTemplate) 0 0).createArgs.map (fun r => objGet r "claim_id") =
      [some (CsvVal.str "CLM-BATCH-001"), some (CsvVal.str "CLM-BATCH-002"),
       some (CsvVal.str "CLM-BATCH-003")] := by
  rw [processClaims_createArgs, processClaims_createArgs]
  exact ⟨rfl, by rfl⟩

set_option maxRecDepth 8000 in
/-- C5 (amended): re-submitting the CSV template performs no
deduplication — every run submits all three template rows again, in
order, whatever the backend answers and however often it is repeated —
but the identifiers submitted are identical in every run, taken verbatim
from the CSV's `claim_id` column; distinct stored identifiers could only
come from the backend's response, not from the upload code. -/
theorem batch_resubmit_no_dedup (o : ApiOracle) (c p : Nat) :
    (processClaims o (parseCSV csvTemplate) c p).createArgs.map
        (fun r => objGet r "claim_id") =
      [some (CsvVal.str "CLM-BATCH-001"), some (CsvVal.str "CLM-BATCH-002"),
       some (CsvVal.str "CLM-BATCH-003")] := by
  rw [processClaims_createArgs]
  rfl

/-- Helper: a guarded singleton is empty exactly when its guard is false. -/
theorem numCheck_eq_nil_iff (t : CsvVal → Bool) (c : Obj) (f msg : String) :
    numCheck t c f msg = [] ↔ numBad t c f = false := by
  unfold numCheck
  cases h : numBad t c f <;> simp [h]

/-- Helper: a boolean check is empty exactly when its guard is false. -/
theorem boolCheck_eq_nil_iff (c : Obj) (f : String) :
    boolCheck c f = [] ↔ boolBad c f = false := by
  unfold boolCheck
  cases h : boolBad c f <;> simp [h]

/-- Helper: the length of a guarded `filterMap` is the count of its guard. -/
theorem length_filterMap_guard {α : Type} (l : List α) (p : α → Bool) (m : α → String) :
    (l.filterMap fun a => if p a then some (m a) else none).length = l.countP p := by
  induction l with
  | nil => rfl
  | cons a t ih =>
    rw [List.filterMap_cons, List.countP_cons]
    cases h : p a <;> simp [h, ih]

/-- Helper: the missing-field block is empty exactly when no required
field is missing. -/
theorem missing_block_nil_iff (c : Obj) :
    (requiredFields.filterMap fun f =>
        if isMissingVal (objGet c f) then some ("Missing required field: " ++ f) else none) = []
      ↔ ∀ f ∈ requiredFields, isMissingVal (objGet c f) = false := by
  rw [List.filterMap_eq_nil_iff]
  refine forall_congr' fun f => forall_congr' fun hf => ?_
  cases h : isMissingVal (objGet c f) <;> simp [h]

/-- Helper: a non-`none` option with false `isNone` is `isSome`. -/
theorem isNone_false_isSome {α : Type} (o : Option α) (h : o.isNone = false) :
    o.isSome = true := by
  cases o
  · simp at h
  · rfl

/-- Helper: an `isSome` option has false `isNone`. -/
theorem isSome_isNone_false {α : Type} (o : Option α) (h : o.isSome = true) :
    o.isNone = false := by
  cases o
  · simp at h
  · rfl

/-- Helper: a present, string-shaped required field is a non-empty string. -/
theorem present_some_str (c : Obj) (f : String)
    (hp : isMissingVal (objGet c f) = false)
    (hstrf : ∀ v, objGet c f = some v → ∃ s, v = CsvVal.str s) :
    ∃ s, objGet c f = some (CsvVal.str s) ∧ s.isEmpty = false := by
  rcases hov : objGet c f with _ | v
  · rw [hov] at hp
    exact absurd hp (by simp [isMissingVal])
  · obtain ⟨s, rfl⟩ := hstrf v hov
    rw [hov] at hp
    exact ⟨s, rfl, by simpa [isMissingVal] using hp⟩

/-- Helper: a present integer-typed field with a passing check parses. -/
theorem int_field_ok (c : Obj) (f msg : String)
    (hp : isMissingVal (objGet c f) = false)
    (hstrf : ∀ v, objGet c f = some v → ∃ s, v = CsvVal.str s)
    (hnil : numCheck csvParseIntNaN c f msg = []) :
    ∃ s, objGet c f = some (CsvVal.str s) ∧ (jsParseInt s).isSome = true := by
  obtain ⟨s, hov, hne⟩ := present_some_str c f hp hstrf
  refine ⟨s, hov, ?_⟩
  have hok : numBad csvParseIntNaN c f = false := (numCheck_eq_nil_iff _ _ _ _).mp hnil
  unfold numBad at hok
  rw [hov] at hok
  simp [csvTruthy, hne, csvParseIntNaN] at hok
  exact hok

/-- Helper: a present float-typed field with a passing check parses. -/
theorem float_field_ok (c : Obj) (f msg : String)
    (hp : isMissingVal (objGet c f) = false)
    (hstrf : ∀ v, objGet c f = some v → ∃ s, v = CsvVal.str s)
    (hnil : numCheck csvParseFloatNaN c f msg = []) :
    ∃ s, objGet c f = some (CsvVal.str s) ∧ (jsParseFloat s).isSome = true := by
  obtain ⟨s, hov, hne⟩ := present_some_str c f hp hstrf
  refine ⟨s, hov, ?_⟩
  have hok : numBad csvParseFloatNaN c f = false := (numCheck_eq_nil_iff _ _ _ _).mp hnil
  unfold numBad at hok
  rw [hov] at hok
  simp [csvTruthy, hne, csvParseFloatNaN] at hok
  exact hok

/-- Helper: a present boolean-typed field with a passing check is the
string `true` or `false`. -/
theorem bool_field_ok (c : Obj) (f : String)
    (hp : isMissingVal (objGet c f) = false)
    (hstrf : ∀ v, objGet c f = some v → ∃ s, v = CsvVal.str s)
    (hnil : boolCheck c f = []) :
    objGet c f = some (CsvVal.str "true") ∨ objGet c f = some (CsvVal.str "false") := by
  obtain ⟨s, hov, hne⟩ := present_some_str c f hp hstrf
  have hok : boolBad c f = false := (boolCheck_eq_nil_iff _ _).mp hnil
  unfold boolBad at hok
  rw [hov] at hok
  simp [csvTruthy, hne] at hok
  have hs : s = "true" ∨ s = "false" := by simpa [isTrueFalseStr] using hok
  rcases hs with rfl | rfl
  · exact Or.inl hov
  · exact Or.inr hov

/-- Helper: a parsing field passes its integer check. -/
theorem int_check_nil (c : Obj) (f msg : String)
    (h : ∃ s, objGet c f = some (CsvVal.str s) ∧ (jsParseInt s).isSome = true) :
    numCheck csvParseIntNaN c f msg = [] := by
  obtain ⟨s, hov, hsome⟩ := h
  unfold numCheck numBad
  rw [hov]
  simp [csvParseIntNaN, isSome_isNone_false _ hsome]

/-- Helper: a parsing field passes its float check. -/
theorem float_check_nil (c : Obj) (f msg : String)
    (h : ∃ s, objGet c f = some (CsvVal.str s) ∧ (jsParseFloat s).isSome = true) :
    numCheck csvParseFloatNaN c f msg = [] := by
  obtain ⟨s, hov, hsome⟩ := h
  unfold numCheck numBad
  rw [hov]
  simp [csvParseFloatNaN, isSome_isNone_false _ hsome]

/-- Helper: a `true`/`false` field passes its boolean check. -/
theorem bool_check_nil (c : Obj) (f : String)
    (h : objGet c f = some (CsvVal.str "true") ∨ objGet c f = some (CsvVal.str "false")) :
    boolCheck c f = [] := by
  unfold boolCheck boolBad
  rcases h with h | h <;> rw [h] <;> simp [isTrueFalseStr]

/-- C3: `validateClaim` returns the empty list exactly when all 30
required fields are present (non-empty), each of the seven numeric fields
parses under the corresponding `parseInt`/`parseFloat` check, and each of
the five boolean fields is the string `true` or `false`; when it fails,
the list holds exactly one message per missing or malformed field, naming
it. Stated for string-shaped records, which is what `parseCSV` produces. -/
theorem validateClaim_spec (c : Obj)
    (hstr : ∀ f ∈ requiredFields, ∀ v, objGet c f = some v → ∃ s, v = CsvVal.str s) :
    (validateClaim c = [] ↔
      (∀ f ∈ requiredFields, isMissingVal (objGet c f) = false) ∧
      (∀ f ∈ intTypedFields, ∃ s, objGet c f = some (CsvVal.str s) ∧
        (jsParseInt s).isSome = true) ∧
      (∀ f ∈ floatTypedFields, ∃ s, objGet c f = some (CsvVal.str s) ∧
        (jsParseFloat s).isSome = true) ∧
      (∀ f ∈ boolTypedFields,
        objGet c f = some (CsvVal.str "true") ∨ objGet c f = some (CsvVal.str "false"))) ∧
    (validateClaim c).length =
      requiredFields.countP (fun f => isMissingVal (objGet c f)) +
      intTypedFields.countP (fun f => numBad csvParseIntNaN c f) +
      floatTypedFields.countP (fun f => numBad csvParseFloatNaN c f) +
      boolTypedFields.countP (fun f => boolBad c f) ∧
    (∀ f ∈ requiredFields, isMissingVal (objGet c f) = true →
      ("Missing required field: " ++ f) ∈ validateClaim c) ∧
    (∀ f ∈ intTypedFields, numBad csvParseIntNaN c f = true →
      (f ++ " must be a number") ∈ validateClaim c) ∧
    (∀ f ∈ floatTypedFields, numBad csvParseFloatNaN c f = true →
      (f ++ " must be a decimal number") ∈ validateClaim c) ∧
    (∀ f ∈ boolTypedFields, boolBad c f = true →
      (f ++ " must be true or false") ∈ validateClaim c) := by
  refine ⟨?_, ?_, ?_, ?_, ?_, ?_⟩
  · constructor
    · intro h
      simp only [validateClaim, List.append_eq_nil] at h
      obtain ⟨⟨⟨⟨⟨⟨⟨⟨⟨⟨⟨⟨h0, h1⟩, h2⟩, h3⟩, h4⟩, h5⟩, h6⟩, h7⟩, h8⟩, h9⟩, h10⟩, h11⟩, h12⟩ := h
      have hp := (missing_block_nil_iff c).mp h0
      refine ⟨hp, ?_, ?_, ?_⟩
      · intro f hf
        fin_cases hf
        · exact int_field_ok c _ _ (hp _ (by decide)) (hstr _ (by decide)) h1
        · exact int_field_ok c _ _ (hp _ (by decide)) (hstr _ (by decide)) h2
        · exact int_field_ok c _ _ (hp _ (by decide)) (hstr _ (by decide)) h3
        · exact int_field_ok c _ _ (hp _ (by decide)) (hstr _ (by decide)) h4
        · exact int_field_ok c _ _ (hp _ (by decide)) (hstr _ (by decide)) h5
      · intro f hf
        fin_cases hf
        · exact float_field_ok c _ _ (hp _ (by decide)) (hstr _ (by decide)) h6
        · exact float_field_ok c _ _ (hp _ (by decide)) (hstr _ (by decide)) h7
      · intro f hf
        fin_cases hf
        · exact bool_field_ok c _ (hp _ (by decide)) (hstr _ (by decide)) h8
        · exact bool_field_ok c _ (hp _ (by decide)) (hstr _ (by decide)) h9
        · exact bool_field_ok c _ (hp _ (by decide)) (hstr _ (by decide)) h10
        · exact bool_field_ok c _ (hp _ (by decide)) (hstr _ (by decide)) h11
        · exact bool_field_ok c _ (hp _ (by decide)) (hstr _ (by decide)) h12
    · rintro ⟨hp, hint, hfloat, hbool⟩
      simp only [validateClaim, List.append_eq_nil]
      refine ⟨⟨⟨⟨⟨⟨⟨⟨⟨⟨⟨⟨?_, ?_⟩, ?_⟩, ?_⟩, ?_⟩, ?_⟩, ?_⟩, ?_⟩, ?_⟩, ?_⟩, ?_⟩, ?_⟩, ?_⟩
      · exact (missing_block_nil_iff c).mpr hp
      · exact int_check_nil c _ _ (hint _ (by decide))
      · exact int_check_nil c _ _ (hint _ (by decide))
      · exact int_check_nil c _ _ (hint _ (by decide))
      · exact int_check_nil c _ _ (hint _ (by decide))
      · exact int_check_nil c _ _ (hint _ (by decide))
      · exact float_check_nil c _ _ (hfloat _ (by decide))
      · exact float_check_nil c _ _ (hfloat _ (by decide))
      · exact bool_check_nil c _ (hbool _ (by decide))
      · exact bool_check_nil c _ (hbool _ (by decide))
      · exact bool_check_nil c _ (hbool _ (by decide))
      · exact bool_check_nil c _ (hbool _ (by decide))
      · exact bool_check_nil c _ (hbool _ (by decide))
  · have hone : ∀ (b : Bool) (m : String), (if b then [m] else []).length = if b then 1 else 0 := by
      intro b m
      cases b <;> rfl
    have htn : ∀ b : Bool, (if b then (1 : Nat) else 0) = b.toNat := by
      intro b
      cases b <;> rfl
    simp only [validateClaim, List.length_append, numCheck, boolCheck, hone,
      length_filterMap_guard, intTypedFields, floatTypedFields, boolTypedFields,
      List.countP_cons, List.countP_nil, htn]
    omega
  · intro f hf hm
    unfold validateClaim
    repeat apply List.mem_append_left
    exact List.mem_filterMap.mpr ⟨f, hf, by simp [hm]⟩
  · intro f hf hbad
    fin_cases hf <;> simp [validateClaim, List.mem_append, numCheck, boolCheck, hbad] at *
  · intro f hf hbad
    fin_cases hf <;> simp [validateClaim, List.mem_append, numCheck, boolCheck, hbad] at *
  · intro f hf hbad
    fin_cases hf <;> simp [validateClaim, List.mem_append, numCheck, boolCheck, hbad] at *

/-- C3 (witness): the empty record has every required field missing, and
the length equation applied there counts the 30 missing-field messages. -/
theorem validateClaim_spec_witness :
    (validateClaim ([] : Obj)).length =
      requiredFields.countP (fun f => isMissingVal (objGet ([] : Obj) f)) +
      intTypedFields.countP (fun f => numBad csvParseIntNaN ([] : Obj) f) +
      floatTypedFields.countP (fun f => numBad csvParseFloatNaN ([] : Obj) f) +
      boolTypedFields.countP (fun f => boolBad ([] : Obj) f) :=
  (validateClaim_spec ([] : Obj) (fun f hf v hv => Option.noConfusion hv)).2.1


/-- Helper: looking a key up in a cons first consults the (later-written)
tail, falling back on the head assignment. -/
theorem objGet_cons_eq (kv : String × CsvVal) (l : Obj) (k : String) :
    objGet (kv :: l) k =
      match objGet l k with
      | some v => some v
      | none => if kv.1 = k then some kv.2 else none := by
  unfold objGet
  rw [List.reverse_cons, List.find?_append]
  rcases h : List.find? (fun kv2 => decide (kv2.1 = k)) l.reverse with _ | kv2
  · simp only [h, Option.none_or]
    by_cases hk : kv.1 = k
    · rw [List.find?_cons_of_pos _ (by simpa using hk)]
      simp [hk]
    · rw [List.find?_cons_of_neg _ (by simpa using hk)]
      simp [hk]
  · simp [h]

/-- Helper: a key absent from an object looks up to `undefined`. -/
theorem objGet_eq_none_of_not_mem (l : Obj) (k : String)
    (h : k ∉ l.map Prod.fst) : objGet l k = none := by
  unfold objGet
  have hf : List.find? (fun kv => decide (kv.1 = k)) l.reverse = none := by
    rw [List.find?_eq_none]
    intro x hx
    simp only [decide_eq_true_eq]
    intro hxk
    exact h (hxk ▸ List.mem_map_of_mem Prod.fst (List.mem_reverse.mp hx))
  rw [hf]
  rfl

/-- Helper: a successful lookup returns a stored value. -/
theorem objGet_mem (l : Obj) (f : String) (v : CsvVal)
    (h : objGet l f = some v) : ∃ k2, (k2, v) ∈ l := by
  unfold objGet at h
  rcases hf : l.reverse.find? (fun kv => decide (kv.1 = f)) with _ | kv
  · rw [hf] at h
    cases h
  · rw [hf] at h
    have hv : kv.2 = v := by simpa using h
    refine ⟨kv.1, ?_⟩
    have hm : kv ∈ l := List.mem_reverse.mp (List.mem_of_find?_eq_some hf)
    rw [← hv]
    simpa using hm

/-- Helper: in an object whose values are all field strings, any stored
key looks up to a string. -/
theorem objGet_str_of_mem (l : Obj) (f : String)
    (hall : ∀ kv ∈ l, ∃ s, kv.2 = CsvVal.str s) (hmem : f ∈ l.map Prod.fst) :
    ∃ s, objGet l f = some (CsvVal.str s) := by
  induction l with
  | nil => simp at hmem
  | cons kv t ih =>
    rcases hog : objGet t f with _ | v
    · have hf : kv.1 = f := by
        rw [List.map_cons] at hmem
        rcases List.mem_cons.mp hmem with h | h
        · exact h.symm
        · obtain ⟨s, hs⟩ := ih (fun kv2 h2 => hall kv2 (List.mem_cons_of_mem _ h2)) h
          rw [hog] at hs
          cases hs
      obtain ⟨s, hs⟩ := hall kv (List.mem_cons_self _ _)
      refine ⟨s, ?_⟩
      rw [objGet_cons_eq, hog]
      show (if kv.1 = f then some kv.2 else none) = some (CsvVal.str s)
      rw [if_pos hf, hs]
    · obtain ⟨k2, hkv⟩ := objGet_mem t f v hog
      obtain ⟨s, hs⟩ := hall (k2, v) (List.mem_cons_of_mem _ hkv)
      have hs2 : v = CsvVal.str s := hs
      refine ⟨s, ?_⟩
      rw [objGet_cons_eq, hog]
      show some v = some (CsvVal.str s)
      rw [hs2]

/-- Helper: the last assignment of an object wins its key's lookup. -/
theorem objGet_append_last (l : Obj) (k : String) (v : CsvVal) :
    objGet (l ++ [(k, v)]) k = some v := by
  unfold objGet
  rw [List.reverse_append, List.reverse_singleton, List.singleton_append]
  rw [List.find?_cons_of_pos _ (by simp)]
  rfl

/-- Helper: a trailing assignment to another key does not affect a lookup. -/
theorem objGet_append_other (l : Obj) (k k2 : String) (v : CsvVal)
    (hne : k2 ≠ k) : objGet (l ++ [(k2, v)]) k = objGet l k := by
  unfold objGet
  rw [List.reverse_append, List.reverse_singleton, List.singleton_append]
  rw [List.find?_cons_of_neg _ (by simp [hne])]

/-- Helper: every parsed row records its line index under `rowNumber`
(it is assigned last, so it wins even against a CSV header of that name). -/
theorem mkRow_rowNumber (headers : List String) (line : List Char) (i : Nat) :
    objGet (mkRow headers line i) "rowNumber" = some (CsvVal.num i) := by
  simp only [mkRow]
  exact objGet_append_last _ _ _

/-- Helper: every header key of a parsed row holds a field string. -/
theorem mkRow_header_str (headers : List String) (line : List Char) (i : Nat)
    (f : String) (hf : f ∈ headers) (hne : f ≠ "rowNumber") :
    ∃ s, objGet (mkRow headers line i) f = some (CsvVal.str s) := by
  simp only [mkRow]
  rw [objGet_append_other _ _ _ _ (Ne.symm hne)]
  apply objGet_str_of_mem
  · intro kv hkv
    obtain ⟨hi, _, rfl⟩ := List.mem_map.mp hkv
    exact ⟨_, rfl⟩
  · rw [List.map_map]
    have hcomp : (Prod.fst ∘ fun hi : Nat × String =>
        (hi.2, CsvVal.str ((((splitOnChar ',' line).map
          (fun v => String.mk (trimChars v))).getD hi.1 "")))) = Prod.snd := rfl
    rw [hcomp]
    rw [show headers.enum = headers.enumFrom 0 from rfl, List.enumFrom_map_snd]
    exact hf

/-- Helper: looking up the `idx`-th header of a duplicate-free header row
returns the `idx`-th field, shifted by the enumeration offset. -/
theorem objGet_build (headers : List String) (vals : Nat → String) :
    ∀ n : Nat, headers.Nodup →
      ∀ (idx : Nat) (hidx : idx < headers.length),
        objGet (((headers.enumFrom n).map fun hi => (hi.2, CsvVal.str (vals hi.1))) : Obj)
            headers[idx] =
          some (CsvVal.str (vals (n + idx))) := by
  induction headers with
  | nil => intro n _ idx hidx; simp at hidx
  | cons h t ih =>
    intro n hnd idx hidx
    rw [List.enumFrom_cons, List.map_cons, objGet_cons_eq]
    cases idx with
    | zero =>
      simp only [List.getElem_cons_zero]
      have hnone : objGet
          (((t.enumFrom (n + 1)).map fun hi => (hi.2, CsvVal.str (vals hi.1))) : Obj) h =
          none := by
        apply objGet_eq_none_of_not_mem
        rw [List.map_map]
        have hcomp : (Prod.fst ∘ fun hi : Nat × String =>
            (hi.2, CsvVal.str (vals hi.1))) = Prod.snd := rfl
        rw [hcomp, List.enumFrom_map_snd]
        exact (List.nodup_cons.mp hnd).1
      rw [hnone]
      simp
    | succ k =>
      have hk : k < t.length := by simpa using hidx
      simp only [List.getElem_cons_succ]
      rw [ih (n + 1) (List.nodup_cons.mp hnd).2 k hk]
      show some (CsvVal.str (vals (n + 1 + k))) = some (CsvVal.str (vals (n + (k + 1))))
      rw [show n + 1 + k = n + (k + 1) from by omega]

/-- Helper: with duplicate-free headers, none named `rowNumber`, the
`idx`-th header of a parsed row holds the `idx`-th trimmed field of the
line, or the empty string when the line has fewer fields. -/
theorem mkRow_value (headers : List String) (line : List Char) (i : Nat)
    (hnd : headers.Nodup) (hrn : "rowNumber" ∉ headers)
    (idx : Nat) (hidx : idx < headers.length) :
    objGet (mkRow headers line i) headers[idx] =
      some (CsvVal.str
        (((splitOnChar ',' line).map fun v => String.mk (trimChars v)).getD idx "")) := by
  simp only [mkRow]
  rw [objGet_append_other _ _ _ _
    (fun h => hrn (by rw [h]; exact headers.getElem_mem hidx))]
  have hb := objGet_build headers
    (fun idx2 => ((splitOnChar ',' line).map fun v => String.mk (trimChars v)).getD idx2 "")
    0 hnd idx hidx
  simpa using hb

/-- Helper: the length of a none-guarded `filterMap` is the count of the
guard's complement. -/
theorem length_filterMap_ifnone {α β : Type} (l : List α) (P : α → Prop)
    [DecidablePred P] (g : α → β) :
    (l.filterMap fun a => if P a then none else some (g a)).length =
      l.countP (fun a => !decide (P a)) := by
  induction l with
  | nil => rfl
  | cons a t ih =>
    rw [List.filterMap_cons, List.countP_cons]
    by_cases h : P a
    · simp [h, ih]
    · simp [h, ih]

/-- Helper: counting a property of the entries of an enumeration counts
the underlying list. -/
theorem countP_enumFrom {α : Type} (L : List α) (q : α → Bool) :
    ∀ n : Nat, (L.enumFrom n).countP (fun il => q il.2) = L.countP q := by
  induction L with
  | nil => intro n; rfl
  | cons a t ih =>
    intro n
    rw [List.enumFrom_cons, List.countP_cons, List.countP_cons, ih]

/-- C9 (counterexample): in the two-line file `h\na` the data line `a` is
the second line of the file, so the claim's 1-based `rowNumber` would be
2; `parseCSV` records 1, the line's 0-based index. -/
theorem parseCSV_rowNumber_counterexample :
    csvLines "h\na" = ["h".data, "a".data] ∧
    parseCSV "h\na" = [[("h", CsvVal.str "a"), ("rowNumber", CsvVal.num 1)]] ∧
    (∀ r ∈ parseCSV "h\na", objGet r "rowNumber" = some (CsvVal.num 1)) ∧
    (1 : Nat) ≠ 2 := by
  refine ⟨by decide, by decide, ?_, by decide⟩
  intro r hr
  have hp : parseCSV "h\na" = [[("h", CsvVal.str "a"), ("rowNumber", CsvVal.num 1)]] := by
    decide
  rw [hp] at hr
  rcases List.mem_singleton.mp hr with rfl
  decide

/-- C9 (amended): `parseCSV` yields one record per non-blank line after
the header; each record stores, for the `idx`-th header, the line's
`idx`-th trimmed field (the empty string when the line has fewer fields),
plus a `rowNumber` equal to the line's 0-based index in the file — which
is its 1-based position among the lines after the header — not the
1-based index in the file. -/
theorem parseCSV_spec (csvText : String) :
    (parseCSV csvText).length =
      ((csvLines csvText).drop 1).countP (fun l => !(trimChars l).isEmpty) ∧
    (∀ r ∈ parseCSV csvText, ∃ i line, 1 ≤ i ∧
      (csvLines csvText)[i]? = some line ∧ trimChars line ≠ [] ∧
      r = mkRow (csvHeaders csvText) line i ∧
      objGet r "rowNumber" = some (CsvVal.num i)) ∧
    (∀ (headers : List String) (line : List Char) (i : Nat),
      objGet (mkRow headers line i) "rowNumber" = some (CsvVal.num i)) ∧
    (∀ (headers : List String) (line : List Char) (i : Nat) (f : String),
      f ∈ headers → f ≠ "rowNumber" →
      ∃ s, objGet (mkRow headers line i) f = some (CsvVal.str s)) ∧
    (∀ (headers : List String) (line : List Char) (i : Nat),
      headers.Nodup → "rowNumber" ∉ headers →
      ∀ (idx : Nat) (hidx : idx < headers.length),
        objGet (mkRow headers line i) headers[idx] =
          some (CsvVal.str
            (((splitOnChar ',' line).map fun v => String.mk (trimChars v)).getD idx ""))) := by
  refine ⟨?_, ?_, mkRow_rowNumber, mkRow_header_str, mkRow_value⟩
  · simp only [parseCSV]
    rw [length_filterMap_ifnone]
    rw [show (csvLines csvText).enum = (csvLines csvText).enumFrom 0 from rfl]
    rw [List.drop_one, List.tail_enumFrom, ← List.drop_one]
    have hc := countP_enumFrom ((csvLines csvText).drop 1)
      (fun l => !decide (trimChars l = [])) (0 + 1)
    refine hc.trans (List.countP_congr fun x _ => ?_)
    rcases htr : trimChars x with _ | ⟨a, t2⟩ <;> simp
  · intro r hr
    simp only [parseCSV] at hr
    obtain ⟨il, hil, hg⟩ := List.mem_filterMap.mp hr
    obtain ⟨i0, line0⟩ := il
    rw [List.mem_iff_getElem?] at hil
    obtain ⟨j, hj⟩ := hil
    rw [List.getElem?_drop] at hj
    rw [show (csvLines csvText).enum = (csvLines csvText).enumFrom 0 from rfl,
      List.getElem?_enumFrom] at hj
    rcases hline : (csvLines csvText)[1 + j]? with _ | line
    · rw [hline] at hj
      cases hj
    · rw [hline] at hj
      have hpair : (0 + (1 + j), line) = (i0, line0) := by simpa using hj
      have hi0 : i0 = 1 + j := by
        have := congrArg Prod.fst hpair
        simpa using this.symm
      have hline0 : line = line0 := congrArg Prod.snd hpair
      by_cases ht : trimChars line0 = []
      · rw [if_pos ht] at hg
        cases hg
      · rw [if_neg ht] at hg
        obtain rfl := Option.some.inj hg
        refine ⟨i0, line0, by omega, ?_, ht, rfl, mkRow_rowNumber _ _ _⟩
        rw [hi0, ← hline0]
        exact hline

/-- Helper: `decRender` at a witnessed scale factor. -/
theorem decRender_eq (q : Rat) (k : Nat)
    (hfind : (List.range 31).find? (fun j => (q * (10 : Rat) ^ j).den = 1) = some k) :
    decRender q = some (decDigitsRender ((q * (10 : Rat) ^ k).num) k) := by
  unfold decRender
  rw [hfind]

/-- Helper: `0.85` parses to the rational `17/20`. -/
theorem jsParseFloatOr0_085 : jsParseFloatOr0 "0.85" = 17 / 20 := by
  have h1 : jsParseFloat "0.85" =
      some (JsNum.fin (ratOfParts false (['0'], ['8', '5'], 0))) := rfl
  unfold jsParseFloatOr0
  rw [h1]
  show ratOfParts false (['0'], ['8', '5'], 0) = 17 / 20
  simp only [ratOfParts]
  norm_num [show decDigitsVal ['0'] = 0 from rfl, show decDigitsVal ['8', '5'] = 85 from rfl,
    show (['8', '5'] : List Char).length = 2 from rfl]

/-- Helper: `0.85` is a canonically written decimal input. -/
theorem canonDecStr_085 : canonDecStr "0.85" := by
  unfold canonDecStr
  rw [jsParseFloatOr0_085]
  have hfind : (List.range 31).find?
      (fun j => ((17 / 20 : Rat) * (10 : Rat) ^ j).den = 1) = some 2 := by
    rw [show List.range 31 = 0 :: 1 :: 2 :: List.range' 3 28 from by decide]
    rw [List.find?_cons_of_neg _ (by simp only [decide_eq_true_eq]; norm_num)]
    rw [List.find?_cons_of_neg _ (by simp only [decide_eq_true_eq]; norm_num)]
    rw [List.find?_cons_of_pos _ (by simp only [decide_eq_true_eq]; norm_num)]
  rw [decRender_eq _ _ hfind]
  rw [show ((17 / 20 : Rat) * (10 : Rat) ^ 2).num = 85 from by norm_num]
  decide

/-- Helper: `2.5` parses to the rational `5/2`. -/
theorem jsParseFloatOr0_25 : jsParseFloatOr0 "2.5" = 5 / 2 := by
  have h1 : jsParseFloat "2.5" =
      some (JsNum.fin (ratOfParts false (['2'], ['5'], 0))) := rfl
  unfold jsParseFloatOr0
  rw [h1]
  show ratOfParts false (['2'], ['5'], 0) = 5 / 2
  simp only [ratOfParts]
  norm_num [show decDigitsVal ['2'] = 2 from rfl, show decDigitsVal ['5'] = 5 from rfl,
    show (['5'] : List Char).length = 1 from rfl]

/-- Helper: `2.5` is a canonically written decimal input. -/
theorem canonDecStr_25 : canonDecStr "2.5" := by
  unfold canonDecStr
  rw [jsParseFloatOr0_25]
  have hfind : (List.range 31).find?
      (fun j => ((5 / 2 : Rat) * (10 : Rat) ^ j).den = 1) = some 1 := by
    rw [show List.range 31 = 0 :: 1 :: List.range' 2 29 from by decide]
    rw [List.find?_cons_of_neg _ (by simp only [decide_eq_true_eq]; norm_num)]
    rw [List.find?_cons_of_pos _ (by simp only [decide_eq_true_eq]; norm_num)]
  rw [decRender_eq _ _ hfind]
  rw [show ((5 / 2 : Rat) * (10 : Rat) ^ 1).num = 25 from by norm_num]
  decide

/-- C6: for every fully and canonically filled new-claim form, the record
`transformFormData` posts to the claim-creation endpoint determines the
submitted form exactly: reading the stored record back into form
representation recovers every field the user entered (strings verbatim,
numbers via their canonical decimal strings, yes/no choices via the
stored booleans). -/
theorem transformFormData_roundtrip (now : Nat) (fd : FormData)
    (hv : FormValid fd) : readBackFormData (transformFormData now fd) = fd := by
  obtain ⟨h1, h2, h3, h4, h5, h6, h7, hb1, hb2, hb3, hb4, hb5⟩ := hv
  unfold canonIntStr at h1 h2 h3 h4 h5
  unfold canonDecStr at h6 h7
  cases fd
  simp only at h1 h2 h3 h4 h5 h6 h7 hb1 hb2 hb3 hb4 hb5
  rcases hb1 with h1b | h1b <;> subst h1b <;>
    rcases hb2 with h2b | h2b <;> subst h2b <;>
      rcases hb3 with h3b | h3b <;> subst h3b <;>
        rcases hb4 with h4b | h4b <;> subst h4b <;>
          rcases hb5 with h5b | h5b <;> subst h5b <;>
            simp [transformFormData, readBackFormData, h1, h2, h3, h4, h5, h6, h7]

/-- C6 (witness): a concrete fully filled form round-trips through the
posted record. -/
theorem transformFormData_roundtrip_witness :
    readBackFormData (transformFormData 1700000000000
      (⟨"26-35", "male", "single", "5000-15000", "employed", "no", "medium", "30", "15",
        "0", "sedan", "100k-250k", "4", "urban", "yes", "no", "clear", "morning",
        "internal", "0", "no", "10k-50k", "0.85", "online", "one-time", "2.5", "none",
        "no", "khomas"⟩ : FormData)) =
      ⟨"26-35", "male", "single", "5000-15000", "employed", "no", "medium", "30", "15",
        "0", "sedan", "100k-250k", "4", "urban", "yes", "no", "clear", "morning",
        "internal", "0", "no", "10k-50k", "0.85", "online", "one-time", "2.5", "none",
        "no", "khomas"⟩ :=
  transformFormData_roundtrip 1700000000000 _
    ⟨by decide, by decide, by decide, by decide, by decide, canonDecStr_085, canonDecStr_25,
     Or.inr rfl, Or.inl rfl, Or.inr rfl, Or.inr rfl, Or.inr rfl⟩

/-- C9 (witness for the amended theorem): the amended characterization
applied to the concrete file `h\na` and to a concrete two-header row with
a one-field line, whose second header holds the empty string. -/
theorem parseCSV_spec_witness :
    (∃ i line, 1 ≤ i ∧ (csvLines "h\na")[i]? = some line ∧ trimChars line ≠ [] ∧
      ([("h", CsvVal.str "a"), ("rowNumber", CsvVal.num 1)] : Obj) =
        mkRow (csvHeaders "h\na") line i ∧
      objGet ([("h", CsvVal.str "a"), ("rowNumber", CsvVal.num 1)] : Obj) "rowNumber" =
        some (CsvVal.num i)) ∧
    objGet (mkRow ["h1", "h2"] "a".data 3) "rowNumber" = some (CsvVal.num 3) ∧
    objGet (mkRow ["h1", "h2"] "a".data 3) (["h1", "h2"] : List String)[1] =
      some (CsvVal.str "") :=
  ⟨(parseCSV_spec "h\na").2.1 _ (by decide),
   (parseCSV_spec "x").2.2.1 ["h1", "h2"] "a".data 3,
   ((parseCSV_spec "x").2.2.2.2 ["h1", "h2"] "a".data 3 (by decide) (by decide)
      1 (by decide)).trans (by decide)⟩

end ClaimGuard
